import Mathlib

/-!
Verification development for the spirit-animal-poc repository.

Part A embeds the Python backend (`spirit-animal-backend/main.py`,
`spirit-animal-backend/llm/pipeline.py`): the FastAPI request handlers,
the interpretation-context builder, the raw-text aggregator, and the
image-generation dispatcher.  Effects (network calls, environment
variables) are made explicit: the environment is a function
`String → Option String`, network outcomes are supplied by an oracle, and
the list of attempted network actions is returned alongside the result so
that "no network request was attempted" is expressible.

Part B embeds the notification sound-resolution engine that the design
document describes (normalizer, message classifier, pattern catalog,
variation selector, resolver).  That engine's code is not part of the
checked-in sources, so those definitions are modelled from the spec, as
marked in their doc comments.
-/

/-! ### Character-level string helpers

Kernel-computable equivalents of the Python string operations used by the
embedded code (`lower`, `upper`, `strip`, `startswith`, substring
containment, path components), defined by structural recursion over the
character list. -/

/-- ASCII lower-casing, Python `str.lower()`. -/
def lowerStr (s : String) : String :=
  ⟨s.data.map Char.toLower⟩

/-- ASCII upper-casing, Python `str.upper()`. -/
def upperStr (s : String) : String :=
  ⟨s.data.map Char.toUpper⟩

/-- Whitespace trimming on both ends, Python `str.strip()`. -/
def trimStr (s : String) : String :=
  ⟨((s.data.dropWhile Char.isWhitespace).reverse.dropWhile
    Char.isWhitespace).reverse⟩

/-- Character-list prefix test. -/
def isPrefixChars : List Char → List Char → Bool
  | [], _ => true
  | _ :: _, [] => false
  | a :: as, b :: bs => a == b && isPrefixChars as bs

/-- String prefix test, Python `str.startswith`. -/
def strStartsWith (s pre : String) : Bool :=
  isPrefixChars pre.data s.data

/-- Character-list substring occurrence test. -/
def occursChars (needle : List Char) : List Char → Bool
  | [] => needle.isEmpty
  | c :: rest => isPrefixChars needle (c :: rest) || occursChars needle rest

/-! ### Part A: the Python backend, from the source under src/ -/

/-- Result record of the v1 pipeline, mirroring the `SpiritResponse` model
in `main.py`. -/
structure SpiritResult where
  personality_summary : String
  spirit_animal : String
  animal_reasoning : String
  art_medium : String
  medium_reasoning : String
  image_url : String
  image_provider : String
deriving DecidableEq

/-- Result record of the v2 pipeline, mirroring the `SpiritResponseV2`
model in `main.py` (adds `image_prompt`, makes `image_url` optional). -/
structure SpiritResultV2 where
  personality_summary : String
  spirit_animal : String
  animal_reasoning : String
  art_medium : String
  medium_reasoning : String
  image_prompt : String
  image_url : Option String
  image_provider : String
deriving DecidableEq

/-- Outcome of a FastAPI request handler as seen by the caller:
a successful response, an `HTTPException` converted by the framework into
an error status with a detail string, or an uncaught exception escaping
the handler (which would abort the request abnormally). -/
inductive HandlerOutcome (α : Type) where
  | response (r : α)
  | httpError (status : Nat) (detail : String)
  | raised (exc : String)
deriving DecidableEq

/-- True when the outcome carries an HTTP error status (4xx/5xx). -/
def HandlerOutcome.isErrorStatus {α : Type} : HandlerOutcome α → Bool
  | .httpError s _ => if 400 ≤ s then true else false
  | _ => false

/-- Handler `get_spirit_animal` of `main.py` (lines 136-171): the whole
body runs inside `try`; any exception `e` is caught and re-raised as
`HTTPException(status_code=500, detail=f"Failed to generate spirit
animal: {e}")`.  The pipeline outcome (success value or exception
message) is the explicit argument. -/
def get_spirit_animal (pipeline : Except String SpiritResult) :
    HandlerOutcome SpiritResult :=
  match pipeline with
  | .ok r => .response r
  | .error e => .httpError 500 ("Failed to generate spirit animal: " ++ e)

/-- Handler `get_spirit_animal_v2` of `main.py` (lines 186-218): same
try/except shape as the v1 handler, same detail message. -/
def get_spirit_animal_v2 (pipeline : Except String SpiritResultV2) :
    HandlerOutcome SpiritResultV2 :=
  match pipeline with
  | .ok r => .response r
  | .error e => .httpError 500 ("Failed to generate spirit animal: " ++ e)

/-- `ENERGY_MODE_HINTS` table from `llm/pipeline.py`. -/
def ENERGY_MODE_HINTS : List (String × String) :=
  [("leader", "Power & Leadership animals (Lion, Wolf, Eagle, Tiger, Bear)"),
   ("adapter", "Grace & Intuition animals (Fox, Dolphin, Cat, Butterfly, Crane)"),
   ("observer", "Wisdom & Contemplation animals (Owl, Elephant, Whale, Raven, Turtle)")]

/-- `SOCIAL_PATTERN_HINTS` table from `llm/pipeline.py`. -/
def SOCIAL_PATTERN_HINTS : List (String × String) :=
  [("solitude", "solitary or independent animals"),
   ("close_circle", "animals known for close family/pack bonds"),
   ("crowd", "social or community-oriented animals")]

/-- One entry of `ELEMENT_ARTISTIC_HINTS` in `llm/pipeline.py`. -/
structure ElementHint where
  palette : String
  mood : String
  medium_affinity : List String
deriving DecidableEq

/-- `ELEMENT_ARTISTIC_HINTS` table from `llm/pipeline.py`. -/
def ELEMENT_ARTISTIC_HINTS : List (String × ElementHint) :=
  [("fire",
    { palette := "warm oranges, reds, golds, dramatic lighting",
      mood := "passionate, transformative, intense, dynamic",
      medium_affinity := ["oil paint with heavy impasto", "charcoal with dramatic contrast", "mixed media with metallic accents"] }),
   ("water",
    { palette := "blues, teals, silvers, flowing gradients",
      mood := "deep, flowing, emotional, serene yet powerful",
      medium_affinity := ["soft watercolor washes", "Japanese ink wash (sumi-e)", "fluid acrylics"] }),
   ("earth",
    { palette := "browns, greens, ochre, natural earth tones",
      mood := "grounded, stable, nurturing, ancient",
      medium_affinity := ["earth-toned oil painting", "woodcut or linocut print", "naturalistic illustration"] }),
   ("air",
    { palette := "light blues, whites, lavender, ethereal highlights",
      mood := "free, light, intellectual, expansive",
      medium_affinity := ["delicate pen and ink", "pastel with soft blending", "minimalist line art"] })]

/-- Hint lines contributed by `energy_mode` in
`_build_interpretation_context`: Python `if energy_mode and energy_mode
in ENERGY_MODE_HINTS`, so a falsy (empty) string contributes nothing. -/
def energyHintLines (energy_mode : Option String) : List String :=
  match energy_mode with
  | none => []
  | some em =>
    if em = "" then []
    else
      match ENERGY_MODE_HINTS.lookup em with
      | some h => ["Energy style suggests: " ++ h]
      | none => []

/-- Hint lines contributed by `social_pattern` in
`_build_interpretation_context`. -/
def socialHintLines (social_pattern : Option String) : List String :=
  match social_pattern with
  | none => []
  | some sp =>
    if sp = "" then []
    else
      match SOCIAL_PATTERN_HINTS.lookup sp with
      | some h => ["Social preference suggests: " ++ h]
      | none => []

/-- Hint lines contributed by `element_affinity` in
`_build_interpretation_context`. -/
def elementHintLines (element_affinity : Option String) : List String :=
  match element_affinity with
  | none => []
  | some ea =>
    if ea = "" then []
    else
      match ELEMENT_ARTISTIC_HINTS.lookup ea with
      | some elem =>
        ["Element affinity (" ++ ea ++ "): palette of " ++ elem.palette ++
          ", mood is " ++ elem.mood]
      | none => []

/-- Hint lines contributed by `pronouns` in
`_build_interpretation_context`: Python `if pronouns and pronouns !=
"unspecified"`. -/
def pronounHintLines (pronouns : Option String) : List String :=
  match pronouns with
  | none => []
  | some p =>
    if p = "" then []
    else if p = "unspecified" then []
    else ["Pronouns: " ++ p]

/-- `_build_interpretation_context` from `llm/pipeline.py` (lines
434-468): starts from `[personality_summary]`, collects the four hint
groups in order, and when any hint exists appends a separator header and
the hints, finally joining everything with newlines. -/
def build_interpretation_context (personality_summary : String)
    (pronouns energy_mode social_pattern element_affinity : Option String) :
    String :=
  let hints := energyHintLines energy_mode ++ socialHintLines social_pattern ++
    elementHintLines element_affinity ++ pronounHintLines pronouns
  let context_parts :=
    if hints = [] then [personality_summary]
    else [personality_summary,
      "\n\n--- Additional Context (for interpretation guidance) ---"] ++ hints
  String.intercalate "\n" context_parts

/-- `SocialData` dataclass from `fetchers/social_fetcher.py`. -/
structure SocialData where
  platform : String
  bio : String
  posts : List String
deriving DecidableEq

/-- Truncation applied to each post in `aggregate_raw_text`
(`llm/pipeline.py` line 207): `post[:500] + "..." if len(post) > 500 else
post`. -/
def truncPost (post : String) : String :=
  if post.length > 500 then post.take 500 ++ "..." else post

/-- Numbered post lines produced by `aggregate_raw_text` for one
platform: `enumerate(sd.posts[:10], 1)` rendered as
`"  {i}. {truncated}"`. -/
def postLines (posts : List String) : List String :=
  (posts.take 10).enum.map
    (fun p => "  " ++ toString (p.1 + 1) ++ ". " ++ truncPost p.2)

/-- Lines contributed by one `SocialData` record in
`aggregate_raw_text`: platform banner, optional bio line, optional posts
section. -/
def socialBlock (sd : SocialData) : List String :=
  ["\n--- " ++ upperStr sd.platform ++ " ---"] ++
  (if sd.bio = "" then [] else ["Bio: " ++ sd.bio]) ++
  (if sd.posts = [] then []
   else ["Recent posts/comments:"] ++ postLines sd.posts)

/-- Parts list built by `aggregate_raw_text` (`llm/pipeline.py` lines
181-210) before the final newline join.  `form_data` is the Python dict
(association list); missing keys take the Python ".get" defaults. -/
def aggregateParts (form_data : List (String × String))
    (social_data : List SocialData) : List String :=
  let base :=
    ["Name: " ++ (form_data.lookup "name").getD "Anonymous",
     "",
     "=== SELF-DESCRIBED INFORMATION ===",
     "Interests and hobbies: " ++ (form_data.lookup "interests").getD "Not provided",
     "Values: " ++ (form_data.lookup "values").getD "Not provided"]
  if social_data = [] then base
  else base ++ ["", "=== SOCIAL MEDIA DATA ==="] ++
    (social_data.map socialBlock).flatten

/-- `aggregate_raw_text` from `llm/pipeline.py`: newline join of the
parts list. -/
def aggregate_raw_text (form_data : List (String × String))
    (social_data : List SocialData) : String :=
  String.intercalate "\n" (aggregateParts form_data social_data)

/-- Python exceptions that `step3_generate_image` can raise or
propagate. -/
inductive PyError where
  | valueError (msg : String)
  | apiError (msg : String)
deriving DecidableEq

/-- Network actions attempted by `step3_generate_image`, recorded in
order. -/
inductive NetAction where
  | openaiImagesGenerate (prompt : String)
  | httpPost (url : String)
deriving DecidableEq

/-- One part of a Gemini `generateContent` candidate: either inline
base64 image data or something else. -/
inductive GeminiPart where
  | inlineData (mimeType : String) (dataB64 : String)
  | otherPart
deriving DecidableEq

/-- One Gemini candidate (its `content.parts`). -/
structure GeminiCandidate where
  parts : List GeminiPart
deriving DecidableEq

/-- Parsed Gemini `generateContent` response body. -/
structure GeminiResponse where
  candidates : List GeminiCandidate
deriving DecidableEq

/-- Outcomes of the network calls `step3_generate_image` can make,
supplied externally: the OpenAI images call, the Ideogram POST
(modelling `raise_for_status` plus URL extraction), and the Gemini POST
(modelling `raise_for_status` plus JSON parsing). -/
structure NetOracle where
  openaiImages : String → Except PyError String
  ideogramPost : String → Except PyError String
  geminiPost : String → Except PyError GeminiResponse

/-- Extraction of the image from a Gemini response
(`llm/pipeline.py` lines 377-387): first candidate, first part, inline
data required; otherwise `ValueError("No image generated by Gemini")`. -/
def extractGeminiImage (r : GeminiResponse) : Except PyError String :=
  match r.candidates with
  | c :: _ =>
    match c.parts with
    | .inlineData mime d :: _ => .ok ("data:" ++ mime ++ ";base64," ++ d)
    | _ => .error (.valueError "No image generated by Gemini")
  | [] => .error (.valueError "No image generated by Gemini")

/-- `step3_generate_image` from `llm/pipeline.py` (lines 305-390) with
effects explicit: returns the list of network actions attempted together
with the result.  Provider dispatch and API-key checks happen before any
network action, exactly as in the source; Python `if not api_key` treats
a missing or empty environment variable as unconfigured. -/
def step3_generate_image (image_prompt : String) (provider : String)
    (env : String → Option String) (oracle : NetOracle) :
    List NetAction × Except PyError String :=
  if provider = "openai" then
    let enhanced := image_prompt ++
      ". Important: Do not include any text, words, letters, or human faces in the image."
    ([.openaiImagesGenerate enhanced], oracle.openaiImages enhanced)
  else if provider = "ideogram" then
    match env "IDEOGRAM_API_KEY" with
    | none => ([], .error (.valueError "IDEOGRAM_API_KEY not configured"))
    | some key =>
      if key = "" then ([], .error (.valueError "IDEOGRAM_API_KEY not configured"))
      else ([.httpPost "https://api.ideogram.ai/v1/generate"],
            oracle.ideogramPost image_prompt)
  else if provider = "gemini" then
    match env "GEMINI_API_KEY" with
    | none => ([], .error (.valueError "GEMINI_API_KEY not configured"))
    | some key =>
      if key = "" then ([], .error (.valueError "GEMINI_API_KEY not configured"))
      else
        let endpoint :=
          "https://generativelanguage.googleapis.com/v1beta/models/gemini-3-pro-image-preview:generateContent?key=" ++ key
        ([.httpPost endpoint],
         match oracle.geminiPost image_prompt with
         | .ok resp => extractGeminiImage resp
         | .error e => .error e)
  else ([], .error (.valueError ("Unknown image provider: " ++ provider)))

/-! ### Part B: the notification sound-resolution engine, modelled from the spec -/

/-- Modelled from the spec: closed set of lifecycle event kinds (design
document section 3); the engine's code is absent from the checked-in
sources. -/
inductive EventKind where
  | Stop
  | PreToolUse
  | PostToolUse
  | Notification
  | SubagentStop
  | UserPromptSubmit
deriving DecidableEq, BEq

/-- Modelled from the spec: closed set of tool kinds (design document
section 3). -/
inductive ToolKind where
  | Read
  | Edit
  | MultiEdit
  | Write
  | NotebookRead
  | NotebookEdit
  | Grep
  | Glob
  | Bash
  | LS
  | Task
  | TodoWrite
  | ExitPlanMode
  | WebFetch
  | WebSearch
deriving DecidableEq, BEq

/-- Modelled from the spec: every tool kind. -/
def allToolKinds : List ToolKind :=
  [.Read, .Edit, .MultiEdit, .Write, .NotebookRead, .NotebookEdit,
   .Grep, .Glob, .Bash, .LS, .Task, .TodoWrite, .ExitPlanMode,
   .WebFetch, .WebSearch]

/-- Modelled from the spec: canonical name of a tool kind, as it appears
in raw payloads and catalog keys. -/
def toolNameOf : ToolKind → String
  | .Read => "Read"
  | .Edit => "Edit"
  | .MultiEdit => "MultiEdit"
  | .Write => "Write"
  | .NotebookRead => "NotebookRead"
  | .NotebookEdit => "NotebookEdit"
  | .Grep => "Grep"
  | .Glob => "Glob"
  | .Bash => "Bash"
  | .LS => "LS"
  | .Task => "Task"
  | .TodoWrite => "TodoWrite"
  | .ExitPlanMode => "ExitPlanMode"
  | .WebFetch => "WebFetch"
  | .WebSearch => "WebSearch"

/-- Modelled from the spec: the file-operation capability group of
section 3. -/
def isFileOpTool : ToolKind → Bool
  | .Read | .Edit | .MultiEdit | .Write | .NotebookRead | .NotebookEdit => true
  | _ => false

/-- Modelled from the spec: variant tools normalized to their base kind
(section 4.5 stage 2). -/
def baseToolOf : ToolKind → ToolKind
  | .MultiEdit => .Edit
  | .NotebookEdit => .Edit
  | .NotebookRead => .Read
  | t => t

/-- Modelled from the spec: canonical event context produced by the
Normalizer (section 3); `eventKind = none` marks an unresolved kind. -/
structure EventContext where
  eventKind : Option EventKind
  toolKind : Option ToolKind
  filePath : Option String
  command : Option String
  message : Option String
deriving DecidableEq

/-- Modelled from the spec: unresolved event kinds are treated downstream
as equivalent to `Stop` (section 4.1). -/
def effectiveKind (ctx : EventContext) : EventKind :=
  ctx.eventKind.getD .Stop

/-- Untyped JSON-like value of a raw payload field. -/
inductive JsonVal where
  | str (s : String)
  | num (n : Int)
  | boolean (b : Bool)
  | null
  | arr (xs : List JsonVal)
  | obj (fields : List (String × JsonVal))

/-- String view of a JSON value: `some` exactly on string values. -/
def JsonVal.asString : JsonVal → Option String
  | .str s => some s
  | _ => none

/-- Modelled from the spec: raw input payload (section 6); each field is
absent or an arbitrary JSON value (`file_path` and `command` live inside
`tool_input` in the wire format). -/
structure RawPayload where
  hook_event_name : Option JsonVal
  tool_name : Option JsonVal
  file_path : Option JsonVal
  command : Option JsonVal
  message : Option JsonVal

/-- Modelled from the spec: exact-match parsing of the event kind name;
unknown names stay unresolved (section 4.1). -/
def parseEventKind (s : String) : Option EventKind :=
  if s = "Stop" then some .Stop
  else if s = "PreToolUse" then some .PreToolUse
  else if s = "PostToolUse" then some .PostToolUse
  else if s = "Notification" then some .Notification
  else if s = "SubagentStop" then some .SubagentStop
  else if s = "UserPromptSubmit" then some .UserPromptSubmit
  else none

/-- Modelled from the spec: tool-kind conversion, exact match first, then
case-insensitive match against the closed set (section 4.1). -/
def parseToolKind (s : String) : Option ToolKind :=
  match allToolKinds.find? (fun t => toolNameOf t = s) with
  | some t => some t
  | none => allToolKinds.find? (fun t => lowerStr (toolNameOf t) = lowerStr s)

/-- Modelled from the spec: the EventContext Normalizer (section 4.1).
Total on every payload; event kind falls back to unresolved, string
fields are copied verbatim only when the raw value is a string. -/
def normalizeEvent (p : RawPayload) : EventContext :=
  { eventKind := (p.hook_event_name.bind JsonVal.asString).bind parseEventKind,
    toolKind := (p.tool_name.bind JsonVal.asString).bind parseToolKind,
    filePath := p.file_path.bind JsonVal.asString,
    command := p.command.bind JsonVal.asString,
    message := p.message.bind JsonVal.asString }

/-- Modelled from the spec: closed set of notification categories
(section 3). -/
inductive NotificationCategory where
  | permission_request
  | idle_timeout
  | error
  | warning
  | info
  | general
deriving DecidableEq, BEq

/-- Modelled from the spec: catalog key of a notification category. -/
def categoryKeyOf : NotificationCategory → String
  | .permission_request => "permission_request"
  | .idle_timeout => "idle_timeout"
  | .error => "error"
  | .warning => "warning"
  | .info => "info"
  | .general => "general"

/-- Substring occurrence test: true when `needle` occurs in `hay`
(non-empty `needle`). -/
def occursIn (needle hay : String) : Bool :=
  occursChars needle.data hay.data

/-- Modelled from the spec: the MessageClassifier (section 4.2), five
rules evaluated in fixed order on the lower-cased text, first match
wins. -/
def classifyMessage (msg : String) : NotificationCategory :=
  let m := lowerStr msg
  if occursIn "permission" m && occursIn "use" m then .permission_request
  else if occursIn "waiting for your input" m || occursIn "waiting for input" m then
    .idle_timeout
  else if ["error", "failed", "exception", "critical"].any (fun k => occursIn k m) then
    .error
  else if ["warning", "warn", "caution"].any (fun k => occursIn k m) then .warning
  else .general

/-- Modelled from the spec: a sound spec is a single identifier or an
ordered set of variants (section 3); `malformed` stands for any
unrecognized shape reaching the VariationSelector (section 4.4). -/
inductive SoundSpec where
  | single (id : String)
  | variants (ids : List String)
  | malformed
deriving DecidableEq

/-- Modelled from the spec: the literal fallback identifier used as the
system-wide default by the VariationSelector (section 4.4). -/
def defaultFallbackId : String := "default"

/-- Modelled from the spec: the VariationSelector (section 4.4).  The
random draw is made explicit as a natural number used modulo the number
of variants; an empty set or unrecognized shape yields the literal
fallback identifier. -/
def selectVariation (rnd : Nat) : SoundSpec → String
  | .single id => id
  | .variants [] => defaultFallbackId
  | .variants (x :: xs) => (x :: xs).getD (rnd % (x :: xs).length) x
  | .malformed => defaultFallbackId

/-- First-some combinator: the staged fallback of the Resolver. -/
def firstSome {α : Type} (a b : Option α) : Option α :=
  match a with
  | some v => some v
  | none => b

/-- Modelled from the spec: a `hookEvents` entry is a direct (legacy)
spec or a structured entry keyed by tool name or category name with an
optional default (sections 3 and 4.5 stages 1 and 4). -/
inductive HookEntry where
  | direct (s : SoundSpec)
  | structured (byKey : List (String × SoundSpec)) (dflt : Option SoundSpec)

/-- Modelled from the spec: one `contextPatterns.fileOperations` entry
(section 3). -/
structure FileOpEntry where
  byFilename : List (String × SoundSpec)
  byExtension : List (String × SoundSpec)
  dflt : Option SoundSpec

/-- Modelled from the spec: one `contextPatterns.bashCommands` family
entry, either a direct (list-form) spec or sub-patterns (section 3). -/
inductive BashEntry where
  | bSpec (s : SoundSpec)
  | bSubs (l : List (String × SoundSpec))

/-- Modelled from the spec: the layered, read-only PatternCatalog
(section 3); `bashDefault` models `contextPatterns.bashCommands.default`
and `dflt` the global default. -/
structure PatternCatalog where
  hookEvents : List (EventKind × HookEntry)
  tools : List (ToolKind × SoundSpec)
  fileOperations : List (ToolKind × FileOpEntry)
  bashCommands : List (String × BashEntry)
  bashDefault : Option SoundSpec
  dflt : SoundSpec

/-- Modelled from the spec: basename of a path (the full filename used
for `byFilename` matching, section 4.5 stage 2). -/
def basenameOf (p : String) : String :=
  ⟨(p.data.reverse.takeWhile (fun c => c != '/')).reverse⟩

/-- Modelled from the spec: recognized special filenames matched by full
filename before suffix matching (section 4.5 stage 2). -/
def specialFilenames : List String :=
  ["README.md", ".gitignore", "Dockerfile", "Makefile"]

/-- Modelled from the spec: extension key derived from the filename's
suffix, lower-cased, with the leading dot (section 4.5 stage 2). -/
def suffixKeyOf (fn : String) : Option String :=
  if fn.data.contains '.' then
    some ("." ++ lowerStr ⟨(fn.data.reverse.takeWhile (fun c => c != '.')).reverse⟩)
  else none

/-- Modelled from the spec: the `byExtension` step, full special
filename first, then the lower-cased suffix (section 4.5 stage 2). -/
def extMatch (entry : FileOpEntry) (fn : String) : Option SoundSpec :=
  firstSome
    (if specialFilenames.contains fn then entry.byExtension.lookup fn else none)
    ((suffixKeyOf fn).bind (fun e => entry.byExtension.lookup e))

/-- Modelled from the spec: file-operation resolution for one catalog
entry, in fixed order byFilename, byExtension, tool default (section 4.5
stage 2). -/
def fileOpLookup (entry : FileOpEntry) (path : String) : Option SoundSpec :=
  let fn := basenameOf path
  firstSome (entry.byFilename.lookup fn)
    (firstSome (extMatch entry fn) entry.dflt)

/-- Modelled from the spec: the fixed ordered list of two-token git
command heads used for the exact git-subcommand match (section 4.5
stage 2); first matching head wins. -/
def gitSubcommands : List String :=
  ["git status", "git add", "git commit", "git push", "git pull",
   "git diff", "git log", "git checkout", "git branch", "git merge",
   "git stash", "git clone"]

/-- Modelled from the spec: leading command-family tokens recognized at
the start of a trimmed bash command (section 4.5 stage 2). -/
def commandFamilies : List String :=
  ["npm", "uv", "python", "node", "docker", "make", "curl", "wget",
   "ssh", "scp", "git"]

/-- Modelled from the spec: bash-command resolution (section 4.5
stage 2): exact git-subcommand match first, then family detection with
sub-pattern or list-form lookup, then `bashCommands.default`. -/
def bashLookup (cat : PatternCatalog) (c : String) : Option SoundSpec :=
  let cmd := trimStr c
  let gitHit :=
    match gitSubcommands.find? (fun p => strStartsWith cmd p) with
    | some p =>
      match cat.bashCommands.lookup "git" with
      | some (.bSubs l) => l.lookup p
      | _ => none
    | none => none
  let famHit :=
    match commandFamilies.find? (fun f => cmd = f || strStartsWith cmd (f ++ " ")) with
    | some f =>
      match cat.bashCommands.lookup f with
      | some (.bSpec s) => some s
      | some (.bSubs l) =>
        match l.find? (fun q => strStartsWith cmd q.1) with
        | some q => some q.2
        | none => none
      | none => none
    | none => none
  firstSome (firstSome gitHit famHit) cat.bashDefault

/-- Modelled from the spec: Resolver stage 1, the Notification
special-case (section 4.5): classify the message, look the category up
under `hookEvents[Notification]`, falling back to that entry's
default. -/
def stage1Notification (cat : PatternCatalog) (ctx : EventContext) :
    Option SoundSpec :=
  match ctx.eventKind, ctx.message with
  | some .Notification, some m =>
    match cat.hookEvents.lookup .Notification with
    | some (.structured byKey dflt) =>
      firstSome (byKey.lookup (categoryKeyOf (classifyMessage m))) dflt
    | _ => none
  | _, _ => none

/-- Modelled from the spec: Resolver stage 2, context-aware tool
resolution for PreToolUse/PostToolUse (section 4.5): file-operation
tools resolve through `fileOperations` on the file path, `Bash` resolves
through `bashCommands` on the command. -/
def stage2Context (cat : PatternCatalog) (ctx : EventContext) :
    Option SoundSpec :=
  match ctx.eventKind with
  | some .PreToolUse | some .PostToolUse =>
    match ctx.toolKind with
    | some t =>
      if isFileOpTool t then
        match ctx.filePath with
        | some p =>
          (cat.fileOperations.lookup (baseToolOf t)).bind
            (fun entry => fileOpLookup entry p)
        | none => none
      else if t = .Bash then
        match ctx.command with
        | some c => bashLookup cat c
        | none => none
      else none
    | none => none
  | _ => none

/-- Modelled from the spec: Resolver stage 3, the flat per-tool mapping
(section 4.5). -/
def stage3Tools (cat : PatternCatalog) (ctx : EventContext) :
    Option SoundSpec :=
  ctx.toolKind.bind (fun t => cat.tools.lookup t)

/-- Modelled from the spec: Resolver stage 4, the hook-event mapping
(section 4.5): a direct entry is used as-is; a structured entry tries
the tool key then the entry default; an unresolved kind acts as
`Stop`. -/
def stage4HookEvent (cat : PatternCatalog) (ctx : EventContext) :
    Option SoundSpec :=
  match cat.hookEvents.lookup (effectiveKind ctx) with
  | some (.direct s) => some s
  | some (.structured byKey dflt) =>
    firstSome (ctx.toolKind.bind (fun t => byKey.lookup (toolNameOf t))) dflt
  | none => none

/-- Modelled from the spec: the Resolver's staged spec selection
(section 4.5): first stage to produce a spec wins, stage 5 being the
global default. -/
def resolveSpec (cat : PatternCatalog) (ctx : EventContext) : SoundSpec :=
  (firstSome
    (firstSome
      (firstSome (stage1Notification cat ctx) (stage2Context cat ctx))
      (stage3Tools cat ctx))
    (stage4HookEvent cat ctx)).getD cat.dflt

/-- Modelled from the spec: the full resolution, the chosen spec passed
through the VariationSelector (sections 4.4 and 4.5). -/
def resolve (rnd : Nat) (cat : PatternCatalog) (ctx : EventContext) : String :=
  selectVariation rnd (resolveSpec cat ctx)

/-- A sound spec is well-formed when every identifier in it is
non-empty. -/
def wellFormedSpec : SoundSpec → Bool
  | .single id => id != ""
  | .variants ids => ids.all (fun i => i != "")
  | .malformed => true

/-- Well-formedness of an optional spec. -/
def wfOpt : Option SoundSpec → Bool
  | none => true
  | some s => wellFormedSpec s

/-- Well-formedness of a string-keyed spec table. -/
def wfTable (l : List (String × SoundSpec)) : Bool :=
  l.all (fun x => wellFormedSpec x.2)

/-- Well-formedness of a hook-event entry. -/
def wfHookEntry : HookEntry → Bool
  | .direct s => wellFormedSpec s
  | .structured byKey dflt => wfTable byKey && wfOpt dflt

/-- Well-formedness of a file-operations entry. -/
def wfFileOpEntry (e : FileOpEntry) : Bool :=
  wfTable e.byFilename && wfTable e.byExtension && wfOpt e.dflt

/-- Well-formedness of a bash-commands entry. -/
def wfBashEntry : BashEntry → Bool
  | .bSpec s => wellFormedSpec s
  | .bSubs l => wfTable l

/-- A catalog is well-formed when every spec it contains is
well-formed. -/
def wellFormedCat (cat : PatternCatalog) : Bool :=
  cat.hookEvents.all (fun x => wfHookEntry x.2) &&
  cat.tools.all (fun x => wellFormedSpec x.2) &&
  cat.fileOperations.all (fun x => wfFileOpEntry x.2) &&
  cat.bashCommands.all (fun x => wfBashEntry x.2) &&
  wfOpt cat.bashDefault &&
  wellFormedSpec cat.dflt

/-- Modelled from the spec: the minimal built-in catalog substituted on
load failure (section 4.3): a default sound per lifecycle kind for
`Stop` and `PostToolUse`, and a global default. -/
def builtinCatalog : PatternCatalog :=
  { hookEvents := [(.Stop, .direct (.single "session_stop")),
                   (.PostToolUse, .direct (.single "tool_complete"))],
    tools := [],
    fileOperations := [],
    bashCommands := [],
    bashDefault := none,
    dflt := .single "default" }

/-- A concrete layered catalog exercising every branch of the spec's
precedence examples (used to instantiate the theorems below). -/
def testCatalog : PatternCatalog :=
  { hookEvents := [(.Notification, .structured
        [("idle_timeout", .single "idle_sound")] (some (.single "notif_default"))),
      (.Stop, .direct (.single "session_stop"))],
    tools := [(.Grep, .single "grep_sound")],
    fileOperations := [(.Edit,
      { byFilename := [("README.md", .single "readme_sound")],
        byExtension := [(".md", .single "md_sound"), (".py", .single "py_sound")],
        dflt := some (.single "edit_default") })],
    bashCommands := [("git", .bSubs [("git status", .single "git_status_sound")])],
    bashDefault := some (.single "bash_default"),
    dflt := .variants ["d1", "d2"] }

/-! ### Helper lemmas -/

/-- A successful association-list lookup returns a value satisfying any
predicate that holds for all values of the list. -/
theorem lookupAllTrue {α β : Type} [BEq α] (p : β → Bool) (k : α) :
    ∀ (l : List (α × β)) (v : β), l.all (fun x => p x.2) = true →
      l.lookup k = some v → p v = true := by
  intro l
  induction l with
  | nil => intro v _ hlk; simp [List.lookup] at hlk
  | cons hd tl ih =>
    obtain ⟨a, b⟩ := hd
    intro v hall hlk
    simp only [List.all_cons, Bool.and_eq_true] at hall
    by_cases hbeq : (k == a) = true
    · simp [List.lookup, hbeq] at hlk
      exact hlk ▸ hall.1
    · simp only [Bool.not_eq_true] at hbeq
      simp [List.lookup, hbeq] at hlk
      exact ih v hall.2 hlk

/-- Case split for the staged-fallback combinator. -/
theorem firstSome_eq_some {α : Type} {a b : Option α} {v : α}
    (h : firstSome a b = some v) : a = some v ∨ b = some v := by
  cases a with
  | none => right; simpa [firstSome] using h
  | some w => left; simpa [firstSome] using h

/-- The combinator ignores its second argument on a some. -/
theorem firstSome_some {α : Type} (v : α) (b : Option α) :
    firstSome (some v) b = some v := rfl

/-- The combinator passes through its second argument on a none. -/
theorem firstSome_none {α : Type} (b : Option α) :
    firstSome (none : Option α) b = b := rfl

/-- Selecting from a non-empty variant list yields a member of the
list. -/
theorem selectVariation_variants_mem (rnd : Nat) (x : String)
    (xs : List String) :
    selectVariation rnd (.variants (x :: xs)) ∈ x :: xs := by
  simp only [selectVariation]
  have hlt : rnd % (x :: xs).length < (x :: xs).length :=
    Nat.mod_lt _ (by simp)
  rw [List.getD_eq_getElem?_getD, List.getElem?_eq_getElem hlt]
  exact List.getElem_mem _

/-- The VariationSelector never returns an empty identifier from a
well-formed spec. -/
theorem selectVariation_ne_empty (rnd : Nat) (s : SoundSpec)
    (h : wellFormedSpec s = true) : selectVariation rnd s ≠ "" := by
  cases s with
  | single id =>
    simp only [wellFormedSpec, bne_iff_ne, ne_eq] at h
    simpa [selectVariation] using h
  | variants ids =>
    cases ids with
    | nil => simp [selectVariation, defaultFallbackId]
    | cons x xs =>
      have hmem := selectVariation_variants_mem rnd x xs
      simp only [wellFormedSpec, List.all_eq_true, bne_iff_ne, ne_eq] at h
      exact h _ hmem
  | malformed => simp [selectVariation, defaultFallbackId]

/-- Unpacking of catalog well-formedness into its six components. -/
theorem wellFormedCat_parts {cat : PatternCatalog}
    (h : wellFormedCat cat = true) :
    cat.hookEvents.all (fun x => wfHookEntry x.2) = true ∧
    cat.tools.all (fun x => wellFormedSpec x.2) = true ∧
    cat.fileOperations.all (fun x => wfFileOpEntry x.2) = true ∧
    cat.bashCommands.all (fun x => wfBashEntry x.2) = true ∧
    wfOpt cat.bashDefault = true ∧
    wellFormedSpec cat.dflt = true := by
  simp only [wellFormedCat, Bool.and_eq_true] at h
  exact ⟨h.1.1.1.1.1, h.1.1.1.1.2, h.1.1.1.2, h.1.1.2, h.1.2, h.2⟩

/-- Specs found by stage 1 of a well-formed catalog are well-formed. -/
theorem stage1_wf {cat : PatternCatalog} {ctx : EventContext} {s : SoundSpec}
    (h : wellFormedCat cat = true)
    (hs : stage1Notification cat ctx = some s) : wellFormedSpec s = true := by
  have hhook := (wellFormedCat_parts h).1
  unfold stage1Notification at hs
  split at hs
  case h_2 => exact absurd hs (by simp)
  case h_1 m =>
    split at hs
    case h_2 => exact absurd hs (by simp)
    case h_1 byKey dflt heq =>
      have hent : wfHookEntry (.structured byKey dflt) = true :=
        lookupAllTrue _ _ _ _ hhook heq
      simp only [wfHookEntry, Bool.and_eq_true] at hent
      rcases firstSome_eq_some hs with hk | hd
      · exact lookupAllTrue _ _ _ _ hent.1 hk
      · cases hdf : dflt with
        | none => rw [hdf] at hd; exact absurd hd (by simp)
        | some d =>
          rw [hdf] at hd
          cases hd
          have := hent.2
          rwa [hdf] at this

/-- Specs found by the file-operation lookup in a well-formed entry are
well-formed. -/
theorem fileOpLookup_wf {entry : FileOpEntry} {p : String} {s : SoundSpec}
    (h : wfFileOpEntry entry = true)
    (hs : fileOpLookup entry p = some s) : wellFormedSpec s = true := by
  simp only [wfFileOpEntry, Bool.and_eq_true] at h
  unfold fileOpLookup at hs
  rcases firstSome_eq_some hs with hfn | hrest
  · exact lookupAllTrue _ _ _ _ h.1.1 hfn
  · rcases firstSome_eq_some hrest with hext | hdflt
    · unfold extMatch at hext
      rcases firstSome_eq_some hext with hspecial | hsuffix
      · split at hspecial
        · exact lookupAllTrue _ _ _ _ h.1.2 hspecial
        · exact absurd hspecial (by simp)
      · rcases Option.bind_eq_some.mp hsuffix with ⟨e, _, hlk⟩
        exact lookupAllTrue _ _ _ _ h.1.2 hlk
    · cases hdf : entry.dflt with
      | none => rw [hdf] at hdflt; exact absurd hdflt (by simp)
      | some d =>
        rw [hdf] at hdflt
        cases hdflt
        have := h.2
        rwa [hdf, wfOpt] at this

/-- Specs found by the bash-command lookup in a well-formed catalog are
well-formed. -/
theorem bashLookup_wf {cat : PatternCatalog} {c : String} {s : SoundSpec}
    (h : wellFormedCat cat = true)
    (hs : bashLookup cat c = some s) : wellFormedSpec s = true := by
  have hbash := (wellFormedCat_parts h).2.2.2.1
  have hbd := (wellFormedCat_parts h).2.2.2.2.1
  unfold bashLookup at hs
  rcases firstSome_eq_some hs with hhit | hdflt
  · rcases firstSome_eq_some hhit with hgit | hfam
    · split at hgit
      case h_2 => exact absurd hgit (by simp)
      case h_1 =>
        split at hgit
        case h_1 l heq =>
          have hent : wfBashEntry (.bSubs l) = true :=
            lookupAllTrue _ _ _ _ hbash heq
          exact lookupAllTrue _ _ _ _ hent hgit
        case h_2 => exact absurd hgit (by simp)
    · split at hfam
      case h_2 => exact absurd hfam (by simp)
      case h_1 =>
        split at hfam
        case h_1 b heq =>
          have hent : wfBashEntry (.bSpec b) = true :=
            lookupAllTrue _ _ _ _ hbash heq
          cases hfam
          exact hent
        case h_2 l heq =>
          have hent : wfBashEntry (.bSubs l) = true :=
            lookupAllTrue _ _ _ _ hbash heq
          split at hfam
          case h_1 q hq =>
            cases hfam
            have hmem := List.find?_some hq
            have hmem2 := List.mem_of_find?_eq_some hq
            simp only [wfBashEntry, wfTable, List.all_eq_true] at hent
            exact hent _ hmem2
          case h_2 => exact absurd hfam (by simp)
        case h_3 => exact absurd hfam (by simp)
  · cases hbdv : cat.bashDefault with
    | none => rw [hbdv] at hdflt; exact absurd hdflt (by simp)
    | some d =>
      rw [hbdv] at hdflt
      cases hdflt
      rwa [hbdv, wfOpt] at hbd

/-- Specs found by stage 2 of a well-formed catalog are well-formed. -/
theorem stage2_wf {cat : PatternCatalog} {ctx : EventContext} {s : SoundSpec}
    (h : wellFormedCat cat = true)
    (hs : stage2Context cat ctx = some s) : wellFormedSpec s = true := by
  have hfops := (wellFormedCat_parts h).2.2.1
  unfold stage2Context at hs
  split at hs
  case h_3 => exact absurd hs (by simp)
  all_goals
    split at hs
    case h_2 => exact absurd hs (by simp)
    case h_1 t =>
      split at hs
      · split at hs
        case h_2 => exact absurd hs (by simp)
        case h_1 p =>
          rcases Option.bind_eq_some.mp hs with ⟨entry, hent, hlk⟩
          have hwfe : wfFileOpEntry entry = true :=
            lookupAllTrue _ _ _ _ hfops hent
          exact fileOpLookup_wf hwfe hlk
      · split at hs
        · split at hs
          case h_2 => exact absurd hs (by simp)
          case h_1 c => exact bashLookup_wf h hs
        · exact absurd hs (by simp)

/-- Specs found by stage 3 of a well-formed catalog are well-formed. -/
theorem stage3_wf {cat : PatternCatalog} {ctx : EventContext} {s : SoundSpec}
    (h : wellFormedCat cat = true)
    (hs : stage3Tools cat ctx = some s) : wellFormedSpec s = true := by
  have htools := (wellFormedCat_parts h).2.1
  unfold stage3Tools at hs
  rcases Option.bind_eq_some.mp hs with ⟨t, _, hlk⟩
  exact lookupAllTrue _ _ _ _ htools hlk

/-- Specs found by stage 4 of a well-formed catalog are well-formed. -/
theorem stage4_wf {cat : PatternCatalog} {ctx : EventContext} {s : SoundSpec}
    (h : wellFormedCat cat = true)
    (hs : stage4HookEvent cat ctx = some s) : wellFormedSpec s = true := by
  have hhook := (wellFormedCat_parts h).1
  unfold stage4HookEvent at hs
  split at hs
  case h_3 => exact absurd hs (by simp)
  case h_1 d heq =>
    have hent : wfHookEntry (.direct d) = true :=
      lookupAllTrue _ _ _ _ hhook heq
    cases hs
    exact hent
  case h_2 byKey dflt heq =>
    have hent : wfHookEntry (.structured byKey dflt) = true :=
      lookupAllTrue _ _ _ _ hhook heq
    simp only [wfHookEntry, Bool.and_eq_true] at hent
    rcases firstSome_eq_some hs with hk | hd
    · rcases Option.bind_eq_some.mp hk with ⟨t, _, hlk⟩
      exact lookupAllTrue _ _ _ _ hent.1 hlk
    · cases hdf : dflt with
      | none => rw [hdf] at hd; exact absurd hd (by simp)
      | some d =>
        rw [hdf] at hd
        cases hd
        have := hent.2
        rwa [hdf] at this

/-- The spec chosen by the Resolver from a well-formed catalog is
well-formed. -/
theorem resolveSpec_wf (cat : PatternCatalog) (ctx : EventContext)
    (h : wellFormedCat cat = true) :
    wellFormedSpec (resolveSpec cat ctx) = true := by
  unfold resolveSpec
  cases hx : firstSome
      (firstSome
        (firstSome (stage1Notification cat ctx) (stage2Context cat ctx))
        (stage3Tools cat ctx))
      (stage4HookEvent cat ctx) with
  | none => simpa using (wellFormedCat_parts h).2.2.2.2.2
  | some s =>
    simp only [Option.getD_some]
    rcases firstSome_eq_some hx with h123 | h4
    · rcases firstSome_eq_some h123 with h12 | h3
      · rcases firstSome_eq_some h12 with h1 | h2
        · exact stage1_wf h h1
        · exact stage2_wf h h2
      · exact stage3_wf h h3
    · exact stage4_wf h h4

/-! ### Claim theorems -/

/-- C3: the MessageClassifier evaluates its five rules in the fixed
order permission_request, idle_timeout, error, warning, general, first
match winning; in particular any text containing both "permission" and
"use" (case-insensitively) classifies as permission_request regardless
of error keywords. -/
theorem c3_classifier_rule_order (msg : String) :
    (occursIn "permission" (lowerStr msg) = true →
      occursIn "use" (lowerStr msg) = true →
      classifyMessage msg = .permission_request) ∧
    ((occursIn "permission" (lowerStr msg) &&
        occursIn "use" (lowerStr msg)) = false →
      (occursIn "waiting for your input" (lowerStr msg) ||
        occursIn "waiting for input" (lowerStr msg)) = true →
      classifyMessage msg = .idle_timeout) ∧
    ((occursIn "permission" (lowerStr msg) &&
        occursIn "use" (lowerStr msg)) = false →
      (occursIn "waiting for your input" (lowerStr msg) ||
        occursIn "waiting for input" (lowerStr msg)) = false →
      (["error", "failed", "exception", "critical"].any
        (fun k => occursIn k (lowerStr msg))) = true →
      classifyMessage msg = .error) ∧
    ((occursIn "permission" (lowerStr msg) &&
        occursIn "use" (lowerStr msg)) = false →
      (occursIn "waiting for your input" (lowerStr msg) ||
        occursIn "waiting for input" (lowerStr msg)) = false →
      (["error", "failed", "exception", "critical"].any
        (fun k => occursIn k (lowerStr msg))) = false →
      (["warning", "warn", "caution"].any
        (fun k => occursIn k (lowerStr msg))) = true →
      classifyMessage msg = .warning) ∧
    ((occursIn "permission" (lowerStr msg) &&
        occursIn "use" (lowerStr msg)) = false →
      (occursIn "waiting for your input" (lowerStr msg) ||
        occursIn "waiting for input" (lowerStr msg)) = false →
      (["error", "failed", "exception", "critical"].any
        (fun k => occursIn k (lowerStr msg))) = false →
      (["warning", "warn", "caution"].any
        (fun k => occursIn k (lowerStr msg))) = false →
      classifyMessage msg = .general) := by
  refine ⟨?_, ?_, ?_, ?_, ?_⟩
  · intro h1 h2
    simp [classifyMessage, h1, h2]
  · intro h1 h2
    simp [classifyMessage, h1, h2]
  · intro h1 h2 h3
    simp [classifyMessage, h1, h2, h3]
  · intro h1 h2 h3 h4
    simp [classifyMessage, h1, h2, h3, h4]
  · intro h1 h2 h3 h4
    simp [classifyMessage, h1, h2, h3, h4]

/-- C3 witness: a message containing "permission", "use" and the error
keyword "error" still classifies as permission_request. -/
theorem c3_witness :
    classifyMessage "Error: permission denied to use tool" =
      .permission_request :=
  (c3_classifier_rule_order "Error: permission denied to use tool").1
    (by decide) (by decide)

/-- C5: the VariationSelector returns a single identifier unchanged,
returns a member of any non-empty variant set, and returns the literal
system-wide fallback identifier on an empty set or unrecognized
shape. -/
theorem c5_variation_selector (rnd : Nat) (id : String)
    (ids : List String) :
    selectVariation rnd (.single id) = id ∧
    (ids ≠ [] → selectVariation rnd (.variants ids) ∈ ids) ∧
    selectVariation rnd (.variants []) = defaultFallbackId ∧
    selectVariation rnd .malformed = defaultFallbackId := by
  refine ⟨rfl, ?_, rfl, rfl⟩
  intro hne
  cases ids with
  | nil => exact absurd rfl hne
  | cons x xs => exact selectVariation_variants_mem rnd x xs

/-- C5 witness: concrete selections from a three-element variant set
and a single identifier. -/
theorem c5_witness :
    selectVariation 5 (.variants ["a", "b", "c"]) ∈ ["a", "b", "c"] ∧
    selectVariation 5 (.single "x") = "x" :=
  ⟨(c5_variation_selector 5 "x" ["a", "b", "c"]).2.1 (by decide),
   (c5_variation_selector 5 "x" ["a", "b", "c"]).1⟩

/-- C6: the Normalizer is total; unknown or missing event kinds yield an
unresolved eventKind treated downstream as Stop, non-string context
fields are treated as absent, and string fields are copied verbatim. -/
theorem c6_normalizer_fallbacks (p : RawPayload) :
    (p.hook_event_name = none → (normalizeEvent p).eventKind = none) ∧
    (∀ v, p.hook_event_name = some v → v.asString = none →
      (normalizeEvent p).eventKind = none) ∧
    (∀ s, p.hook_event_name = some (.str s) → parseEventKind s = none →
      (normalizeEvent p).eventKind = none) ∧
    ((normalizeEvent p).eventKind = none →
      effectiveKind (normalizeEvent p) = .Stop) ∧
    (∀ s, p.file_path = some (.str s) →
      (normalizeEvent p).filePath = some s) ∧
    (∀ v, p.file_path = some v → v.asString = none →
      (normalizeEvent p).filePath = none) ∧
    (p.file_path = none → (normalizeEvent p).filePath = none) ∧
    (∀ s, p.command = some (.str s) →
      (normalizeEvent p).command = some s) ∧
    (∀ v, p.command = some v → v.asString = none →
      (normalizeEvent p).command = none) ∧
    (p.command = none → (normalizeEvent p).command = none) ∧
    (∀ s, p.message = some (.str s) →
      (normalizeEvent p).message = some s) ∧
    (∀ v, p.message = some v → v.asString = none →
      (normalizeEvent p).message = none) ∧
    (p.message = none → (normalizeEvent p).message = none) := by
  refine ⟨?_, ?_, ?_, ?_, ?_, ?_, ?_, ?_, ?_, ?_, ?_, ?_, ?_⟩
  · intro h; simp [normalizeEvent, h]
  · intro v h1 h2; simp [normalizeEvent, h1, h2]
  · intro s h1 h2; simp [normalizeEvent, h1, h2, JsonVal.asString]
  · intro h; simp [effectiveKind, h]
  · intro s h; simp [normalizeEvent, h, JsonVal.asString]
  · intro v h1 h2; simp [normalizeEvent, h1, h2]
  · intro h; simp [normalizeEvent, h]
  · intro s h; simp [normalizeEvent, h, JsonVal.asString]
  · intro v h1 h2; simp [normalizeEvent, h1, h2]
  · intro h; simp [normalizeEvent, h]
  · intro s h; simp [normalizeEvent, h, JsonVal.asString]
  · intro v h1 h2; simp [normalizeEvent, h1, h2]
  · intro h; simp [normalizeEvent, h]

/-- C6 witness: a payload with an unknown event name, a numeric file
path and a string message normalizes to an unresolved kind acting as
Stop, an absent path, and the verbatim message. -/
theorem c6_witness :
    (normalizeEvent ⟨some (.str "Wat"), none, some (.num 3), none,
      some (.str "hi")⟩).eventKind = none ∧
    effectiveKind (normalizeEvent ⟨some (.str "Wat"), none, some (.num 3),
      none, some (.str "hi")⟩) = .Stop ∧
    (normalizeEvent ⟨some (.str "Wat"), none, some (.num 3), none,
      some (.str "hi")⟩).filePath = none ∧
    (normalizeEvent ⟨some (.str "Wat"), none, some (.num 3), none,
      some (.str "hi")⟩).message = some "hi" := by
  have h := c6_normalizer_fallbacks
    ⟨some (.str "Wat"), none, some (.num 3), none, some (.str "hi")⟩
  have hek := h.2.2.1 "Wat" rfl (by decide)
  exact ⟨hek, h.2.2.2.1 hek,
    h.2.2.2.2.2.1 (.num 3) rfl rfl,
    h.2.2.2.2.2.2.2.2.2.2.1 "hi" rfl⟩

/-- C7: the Normalizer is deterministic: normalizing the same raw
payload twice yields structurally equal contexts. -/
theorem c7_normalizer_deterministic (p : RawPayload) :
    normalizeEvent p = normalizeEvent p := rfl

/-- C8: when no metadata value is recognized (absent or unknown keys,
pronouns absent or "unspecified"), the interpretation context is the
personality summary unchanged. -/
theorem c8_unrecognized_metadata_unchanged (personality_summary : String)
    (pronouns energy_mode social_pattern element_affinity : Option String)
    (hp : pronouns = none ∨ pronouns = some "unspecified")
    (he : ∀ em, energy_mode = some em → ENERGY_MODE_HINTS.lookup em = none)
    (hs : ∀ sp, social_pattern = some sp →
      SOCIAL_PATTERN_HINTS.lookup sp = none)
    (ha : ∀ ea, element_affinity = some ea →
      ELEMENT_ARTISTIC_HINTS.lookup ea = none) :
    build_interpretation_context personality_summary pronouns energy_mode
      social_pattern element_affinity = personality_summary := by
  have he' : energyHintLines energy_mode = [] := by
    cases hem : energy_mode with
    | none => rfl
    | some em => simp [energyHintLines, he em hem]
  have hs' : socialHintLines social_pattern = [] := by
    cases hsp : social_pattern with
    | none => rfl
    | some sp => simp [socialHintLines, hs sp hsp]
  have ha' : elementHintLines element_affinity = [] := by
    cases hea : element_affinity with
    | none => rfl
    | some ea => simp [elementHintLines, ha ea hea]
  have hp' : pronounHintLines pronouns = [] := by
    rcases hp with h | h <;> simp [pronounHintLines, h]
  simp only [build_interpretation_context, he', hs', ha', hp',
    List.append_nil, String.intercalate, if_pos rfl]
  rfl

/-- C8 witness: unrecognized energy mode, empty element affinity and
"unspecified" pronouns leave the summary untouched. -/
theorem c8_witness :
    build_interpretation_context "S" (some "unspecified") (some "boss")
      none (some "") = "S" :=
  c8_unrecognized_metadata_unchanged "S" (some "unspecified") (some "boss")
    none (some "")
    (Or.inr rfl)
    (fun em hem => by cases hem; decide)
    (fun sp hsp => by cases hsp)
    (fun ea hea => by cases hea; decide)

/-- C1 counterexample: on an internal pipeline failure the v1 handler
surfaces HTTP status 500 — an error status — to the caller, refuting
the claim that internal errors are converted into degraded-but-valid
results and never surfaced as an error status. -/
theorem c1_counterexample :
    get_spirit_animal (.error "boom") =
      .httpError 500 ("Failed to generate spirit animal: " ++ "boom") ∧
    (get_spirit_animal (.error "boom")).isErrorStatus = true :=
  ⟨rfl, by decide⟩

/-- C1 (amended): both request handlers catch every internal exception
and convert it into an HTTP 500 error response with the fixed detail
message, so no raw exception ever escapes a handler; the failure is
surfaced to the caller as an error status, not as a degraded-but-valid
result. -/
theorem c1_handlers_convert_exceptions (p : Except String SpiritResult)
    (q : Except String SpiritResultV2) :
    (∀ r, p = .ok r → get_spirit_animal p = .response r) ∧
    (∀ e, p = .error e → get_spirit_animal p =
      .httpError 500 ("Failed to generate spirit animal: " ++ e)) ∧
    (∀ exc, get_spirit_animal p ≠ .raised exc) ∧
    (∀ r, q = .ok r → get_spirit_animal_v2 q = .response r) ∧
    (∀ e, q = .error e → get_spirit_animal_v2 q =
      .httpError 500 ("Failed to generate spirit animal: " ++ e)) ∧
    (∀ exc, get_spirit_animal_v2 q ≠ .raised exc) := by
  refine ⟨?_, ?_, ?_, ?_, ?_, ?_⟩
  · intro r h; subst h; rfl
  · intro e h; subst h; rfl
  · intro exc; cases p <;> simp [get_spirit_animal]
  · intro r h; subst h; rfl
  · intro e h; subst h; rfl
  · intro exc; cases q <;> simp [get_spirit_animal_v2]

/-- C1 witness: a failing v1 pipeline yields the 500 response and a
successful v2 pipeline yields the plain response. -/
theorem c1_witness :
    get_spirit_animal (.error "x") =
      .httpError 500 ("Failed to generate spirit animal: " ++ "x") ∧
    get_spirit_animal_v2 (.ok ⟨"a", "b", "c", "d", "e", "f", none, "g"⟩) =
      .response ⟨"a", "b", "c", "d", "e", "f", none, "g"⟩ :=
  have h := c1_handlers_convert_exceptions (.error "x")
    (.ok ⟨"a", "b", "c", "d", "e", "f", none, "g"⟩)
  ⟨h.2.1 "x" rfl, h.2.2.2.1 ⟨"a", "b", "c", "d", "e", "f", none, "g"⟩ rfl⟩

/-- C2: for every well-formed catalog, context and random draw the
resolution engine returns a non-empty identifier, and for contexts
lacking any tool or message the chosen spec comes from the hook-event
stage with the global default as fallback. -/
theorem c2_resolver_nonempty_and_defaults (cat : PatternCatalog)
    (ctx : EventContext) (rnd : Nat) (hwf : wellFormedCat cat = true) :
    resolve rnd cat ctx ≠ "" ∧
    (ctx.toolKind = none → ctx.message = none →
      resolveSpec cat ctx = (stage4HookEvent cat ctx).getD cat.dflt) := by
  constructor
  · exact selectVariation_ne_empty rnd _ (resolveSpec_wf cat ctx hwf)
  · intro ht hm
    have h1 : stage1Notification cat ctx = none := by
      unfold stage1Notification
      rw [hm]
      rcases hek : ctx.eventKind with _ | k
      · rfl
      · cases k <;> rfl
    have h2 : stage2Context cat ctx = none := by
      unfold stage2Context
      rw [ht]
      rcases hek : ctx.eventKind with _ | k
      · rfl
      · cases k <;> rfl
    have h3 : stage3Tools cat ctx = none := by
      unfold stage3Tools
      rw [ht]
      rfl
    unfold resolveSpec
    rw [h1, h2, h3]
    rfl

/-- C2 witness: the built-in catalog is well-formed; an event of kind
UserPromptSubmit with no context resolves non-emptily through the
hook-event/global-default stages. -/
theorem c2_witness :
    wellFormedCat builtinCatalog = true ∧
    resolve 0 builtinCatalog ⟨some .UserPromptSubmit, none, none, none,
      none⟩ ≠ "" ∧
    resolveSpec builtinCatalog ⟨some .UserPromptSubmit, none, none, none,
      none⟩ = (stage4HookEvent builtinCatalog ⟨some .UserPromptSubmit,
        none, none, none, none⟩).getD builtinCatalog.dflt := by
  refine ⟨by decide, ?_, ?_⟩
  · exact (c2_resolver_nonempty_and_defaults builtinCatalog
      ⟨some .UserPromptSubmit, none, none, none, none⟩ 0 (by decide)).1
  · exact (c2_resolver_nonempty_and_defaults builtinCatalog
      ⟨some .UserPromptSubmit, none, none, none, none⟩ 0 (by decide)).2
      rfl rfl

/-- C4: for PreToolUse/PostToolUse events on a file-operation tool with
a file path, resolution tries byFilename, then byExtension, then the
tool default, in that order; a byFilename hit wins regardless of any
byExtension entry. -/
theorem c4_fileop_resolution_order (cat : PatternCatalog)
    (ctx : EventContext) (t : ToolKind) (entry : FileOpEntry) (p : String)
    (he : ctx.eventKind = some .PreToolUse ∨
      ctx.eventKind = some .PostToolUse)
    (ht : ctx.toolKind = some t) (hf : isFileOpTool t = true)
    (hp : ctx.filePath = some p)
    (hent : cat.fileOperations.lookup (baseToolOf t) = some entry) :
    (∀ s, entry.byFilename.lookup (basenameOf p) = some s →
      resolveSpec cat ctx = s) ∧
    (entry.byFilename.lookup (basenameOf p) = none →
      ∀ s, extMatch entry (basenameOf p) = some s →
        resolveSpec cat ctx = s) ∧
    (entry.byFilename.lookup (basenameOf p) = none →
      extMatch entry (basenameOf p) = none →
      ∀ s, entry.dflt = some s → resolveSpec cat ctx = s) := by
  have h1 : stage1Notification cat ctx = none := by
    unfold stage1Notification
    rcases he with h | h <;> rw [h]
  have h2 : stage2Context cat ctx = fileOpLookup entry p := by
    rcases he with h | h <;>
      simp [stage2Context, h, ht, hf, hp, hent]
  refine ⟨?_, ?_, ?_⟩
  · intro s hfn
    simp only [resolveSpec, h1, h2, firstSome_none, fileOpLookup]
    rw [hfn]
    rfl
  · intro hfn s hext
    simp only [resolveSpec, h1, h2, firstSome_none, fileOpLookup]
    rw [hfn, hext]
    rfl
  · intro hfn hext s hd
    simp only [resolveSpec, h1, h2, firstSome_none, fileOpLookup]
    rw [hfn, hext, hd]
    rfl

/-- C4 witness: with both byFilename["README.md"] and byExtension[".md"]
present, a MultiEdit PreToolUse on docs/README.md resolves to the
filename-specific identifier. -/
theorem c4_witness :
    resolveSpec testCatalog ⟨some .PreToolUse, some .MultiEdit,
      some "docs/README.md", none, none⟩ = .single "readme_sound" :=
  (c4_fileop_resolution_order testCatalog
    ⟨some .PreToolUse, some .MultiEdit, some "docs/README.md", none, none⟩
    .MultiEdit
    { byFilename := [("README.md", .single "readme_sound")],
      byExtension := [(".md", .single "md_sound"),
        (".py", .single "py_sound")],
      dflt := some (.single "edit_default") }
    "docs/README.md" (Or.inl rfl) rfl rfl rfl rfl).1
    (.single "readme_sound") rfl

/-- C9: the aggregator joins its parts with newlines; per platform it
renders exactly the first ten posts, numbering from one, truncating any
post beyond 500 characters to its first 500 characters plus "..." and
leaving shorter posts verbatim; a missing name renders as Anonymous. -/
theorem c9_aggregate_shape (form_data : List (String × String))
    (social_data : List SocialData) (posts : List String) :
    aggregate_raw_text form_data social_data =
      String.intercalate "\n" (aggregateParts form_data social_data) ∧
    (postLines posts).length = min 10 posts.length ∧
    (∀ i p, posts[i]? = some p → i < 10 →
      (postLines posts)[i]? = some ("  " ++ toString (i + 1) ++ ". " ++
        (if p.length > 500 then p.take 500 ++ "..." else p))) ∧
    (∀ i, 10 ≤ i → (postLines posts)[i]? = none) ∧
    (form_data.lookup "name" = none →
      (aggregateParts form_data social_data).head? =
        some "Name: Anonymous") := by
  refine ⟨rfl, ?_, ?_, ?_, ?_⟩
  · simp [postLines]
  · intro i p hip hi
    simp [postLines, truncPost, List.getElem?_take, hi, hip]
  · intro i hi
    apply List.getElem?_eq_none
    simp only [postLines, List.length_map, List.enum_length,
      List.length_take]
    omega
  · intro hname
    simp only [aggregateParts, hname, Option.getD_none]
    split <;> rfl

/-- C9 witness: two short posts render numbered and verbatim, and a
form without a name renders Anonymous. -/
theorem c9_witness :
    (postLines ["a", "b"]).length = min 10 2 ∧
    (postLines ["a", "b"])[1]? = some ("  " ++ toString (1 + 1) ++ ". " ++
      (if ("b".length > 500) then "b".take 500 ++ "..." else "b")) ∧
    (aggregateParts [("interests", "x")]
      [⟨"tw", "", ["a", "b"]⟩]).head? = some "Name: Anonymous" :=
  have h := c9_aggregate_shape [("interests", "x")]
    [⟨"tw", "", ["a", "b"]⟩] ["a", "b"]
  ⟨h.2.1, h.2.2.1 1 "b" rfl (by decide), h.2.2.2.2 rfl⟩

/-- C10: the image-generation step rejects unknown providers with a
ValueError, and for ideogram/gemini rejects a missing API key with a
ValueError before attempting any network action. -/
theorem c10_provider_validation (image_prompt provider : String)
    (env : String → Option String) (oracle : NetOracle) :
    (provider ∉ (["openai", "ideogram", "gemini"] : List String) →
      step3_generate_image image_prompt provider env oracle =
        ([], .error (.valueError ("Unknown image provider: " ++
          provider)))) ∧
    (provider = "ideogram" → env "IDEOGRAM_API_KEY" = none →
      step3_generate_image image_prompt provider env oracle =
        ([], .error (.valueError "IDEOGRAM_API_KEY not configured"))) ∧
    (provider = "gemini" → env "GEMINI_API_KEY" = none →
      step3_generate_image image_prompt provider env oracle =
        ([], .error (.valueError "GEMINI_API_KEY not configured"))) := by
  refine ⟨?_, ?_, ?_⟩
  · intro hmem
    simp only [List.mem_cons, List.not_mem_nil, or_false, not_or] at hmem
    obtain ⟨h1, h2, h3⟩ := hmem
    simp [step3_generate_image, h1, h2, h3]
  · intro hp henv
    subst hp
    simp [step3_generate_image, henv]
  · intro hp henv
    subst hp
    simp [step3_generate_image, henv]

/-- C10 witness: an unknown provider and a keyless gemini call both
fail fast with a ValueError and an empty action trace. -/
theorem c10_witness :
    step3_generate_image "p" "foo" (fun _ => none)
      ⟨fun _ => .error (.apiError "x"), fun _ => .error (.apiError "x"),
        fun _ => .error (.apiError "x")⟩ =
      ([], .error (.valueError ("Unknown image provider: " ++ "foo"))) ∧
    step3_generate_image "p" "gemini" (fun _ => none)
      ⟨fun _ => .error (.apiError "x"), fun _ => .error (.apiError "x"),
        fun _ => .error (.apiError "x")⟩ =
      ([], .error (.valueError "GEMINI_API_KEY not configured")) :=
  have h1 := c10_provider_validation "p" "foo" (fun _ => none)
    ⟨fun _ => .error (.apiError "x"), fun _ => .error (.apiError "x"),
      fun _ => .error (.apiError "x")⟩
  have h2 := c10_provider_validation "p" "gemini" (fun _ => none)
    ⟨fun _ => .error (.apiError "x"), fun _ => .error (.apiError "x"),
      fun _ => .error (.apiError "x")⟩
  ⟨h1.1 (by decide), h2.2.2 rfl rfl⟩
